import Mathlib

/-!
Verification of the financial summary calculator in
`src/features/billing/components/order-history-receipt.tsx`.

The component computes, from an order record: the cart subtotal
(`totalAmount`), a conditional discount (`discountAmount`), the final
payable amount (`finalAmount`), and a two-component tax summary
(`gstSummary`, holding `baseAmount`, `sgstAmount`, `cgstAmount` and the
two deduplicated rate lists), plus the display helper `formatGSTRates`.

JavaScript numbers are modelled as exact rationals.  A numeric field
that the TypeScript interface marks optional, or that a caller may omit
(the file is `@ts-nocheck`), is an `Option ℚ`; `none` is `undefined`.
Arithmetic on a possibly-`undefined` value produces `NaN` in JavaScript,
so expression-level numbers are `JSNum := Option ℚ` with `none`
standing for `NaN` and the arithmetic operators propagating it.
-/

/-- A JavaScript numeric expression value: `some q` is a finite number,
`none` models `NaN` (as produced by arithmetic on `undefined`). -/
abbrev JSNum := Option ℚ

/-- JavaScript `*` : `NaN` propagates. -/
def jsMul : JSNum → JSNum → JSNum
  | some a, some b => some (a * b)
  | _, _ => none

/-- JavaScript `+` on numbers: `NaN` propagates. -/
def jsAdd : JSNum → JSNum → JSNum
  | some a, some b => some (a + b)
  | _, _ => none

/-- JavaScript `-` on numbers: `NaN` propagates. -/
def jsSub : JSNum → JSNum → JSNum
  | some a, some b => some (a - b)
  | _, _ => none

/-- JavaScript `x / 100` for a possibly-`NaN` `x`. -/
def jsDiv100 (x : JSNum) : JSNum := x.map (fun a => a / 100)

/-- The `CartItem` interface.  `price` and `quantity` are declared
`number` but the component defends against their absence in some places
(`item?.quantity || 0`) and not in others (`item.price * item.quantity`),
so they are modelled as possibly absent. -/
structure CartItem where
  name : String
  price : Option ℚ
  quantity : Option ℚ
  description : Option String
  sgst : Option ℚ
  cgst : Option ℚ
deriving DecidableEq

/-- The `CustomerDetails` interface. -/
structure CustomerDetails where
  doctorName : Option String
  customerName : Option String
  customerMobile : Option String
deriving DecidableEq

/-- The `Order` interface. -/
structure Order where
  order_id : ℚ
  invoice_number : String
  order_date : String
  order_time : String
  total : ℚ
  paymentMethod : String
  cart : Option (List CartItem)
  customerDetails : Option CustomerDetails
  discount_percentage : Option ℚ

/-- Result of `calculateItemGST`. -/
structure ItemGST where
  sgst : JSNum
  cgst : JSNum
deriving DecidableEq

/-- Accumulator and result of the `gstSummary` reduce. -/
structure GSTSummary where
  baseAmount : JSNum
  sgstAmount : JSNum
  cgstAmount : JSNum
  sgstRates : List ℚ
  cgstRates : List ℚ
deriving DecidableEq

/-- Lines 45-49: `(order.cart || []).reduce((sum, item) =>
sum + (item?.quantity || 0) * (item?.price || 0), 0)`. -/
def totalAmount (o : Order) : ℚ :=
  (o.cart.getD []).foldl
    (fun sum item => sum + item.quantity.getD 0 * item.price.getD 0) 0

/-- Lines 52-54: `order.discount_percentage ?
totalAmount * (order.discount_percentage / 100) : 0`.
A present, non-zero percentage is truthy; `0` or an absent field is falsy. -/
def discountAmount (o : Order) : ℚ :=
  match o.discount_percentage with
  | some d => if d = 0 then 0 else totalAmount o * (d / 100)
  | none => 0

/-- Line 57: `totalAmount - discountAmount`. -/
def finalAmount (o : Order) : ℚ :=
  totalAmount o - discountAmount o

/-- Lines 60-70: per-item GST.  `item.price` and `item.quantity` are used
without defaulting, so an absent field makes `baseAmount` `NaN`; the rates
are defaulted with `|| 0`. -/
def calculateItemGST (item : CartItem) : ItemGST :=
  let itemPrice := item.price
  let itemQuantity := item.quantity
  let baseAmount := jsMul itemPrice itemQuantity
  { sgst := jsDiv100 (jsMul baseAmount (some (item.sgst.getD 0)))
    cgst := jsDiv100 (jsMul baseAmount (some (item.cgst.getD 0))) }

/-- Lines 81-86: `if (rate > 0 && !rates.includes(rate)) rates.push(rate)`. -/
def ratesStep (acc : List ℚ) (r : ℚ) : List ℚ :=
  if 0 < r ∧ r ∉ acc then acc ++ [r] else acc

/-- Lines 74-95: the body of the `gstSummary` reduce. -/
def gstStep (summary : GSTSummary) (item : CartItem) : GSTSummary :=
  let g := calculateItemGST item
  let itemTotal := jsMul item.quantity item.price
  let sgstRate := item.sgst.getD 0
  let cgstRate := item.cgst.getD 0
  { baseAmount := jsAdd summary.baseAmount itemTotal
    sgstAmount := jsAdd summary.sgstAmount g.sgst
    cgstAmount := jsAdd summary.cgstAmount g.cgst
    sgstRates := ratesStep summary.sgstRates sgstRate
    cgstRates := ratesStep summary.cgstRates cgstRate }

/-- Lines 73-103: `(order.cart || []).reduce(..., { baseAmount: 0,
sgstAmount: 0, cgstAmount: 0, sgstRates: [], cgstRates: [] })`. -/
def gstSummary (o : Order) : GSTSummary :=
  (o.cart.getD []).foldl gstStep ⟨some 0, some 0, some 0, [], []⟩

/-- Lines 109-113: `formatGSTRates`.  Empty list displays as `"0"`, a
single rate as itself, several rates as `"min-max"` over the whole list
(`Math.min(...rates)` / `Math.max(...rates)`). -/
def formatGSTRates (rates : List ℚ) : String :=
  match rates with
  | [] => "0"
  | [r] => toString r
  | r :: rs => toString (rs.foldl min r) ++ "-" ++ toString (rs.foldl max r)

/-- Line 296: `finalAmount - (cgstAmount + sgstAmount)` (the
"Taxable Value" row). -/
def taxableValue (o : Order) : JSNum :=
  jsSub (some (finalAmount o))
    (jsAdd (gstSummary o).cgstAmount (gstSummary o).sgstAmount)

/-- Line 308: `cgstAmount + sgstAmount` (the "Total Tax" row). -/
def totalTax (o : Order) : JSNum :=
  jsAdd (gstSummary o).cgstAmount (gstSummary o).sgstAmount

/-- Everything the calculator hands to the presentation layer. -/
structure ReceiptData where
  totalAmount : ℚ
  discountAmount : ℚ
  finalAmount : ℚ
  baseAmount : JSNum
  sgstAmount : JSNum
  cgstAmount : JSNum
  sgstRates : List ℚ
  cgstRates : List ℚ
  sgstRatesDisplay : String
  cgstRatesDisplay : String
  taxableValue : JSNum
  totalTax : JSNum

/-- The full calculator portion of the component body (lines 44-113),
bundling every derived figure the renderer consumes. -/
def computeReceipt (o : Order) : ReceiptData :=
  let s := gstSummary o
  { totalAmount := totalAmount o
    discountAmount := discountAmount o
    finalAmount := finalAmount o
    baseAmount := s.baseAmount
    sgstAmount := s.sgstAmount
    cgstAmount := s.cgstAmount
    sgstRates := s.sgstRates
    cgstRates := s.cgstRates
    sgstRatesDisplay := formatGSTRates s.sgstRates
    cgstRatesDisplay := formatGSTRates s.cgstRates
    taxableValue := taxableValue o
    totalTax := totalTax o }

/-- Lines 40-42: the component's null guard.  An absent order renders
nothing (`return null`); otherwise the calculator runs. -/
def OrderHistoryReceipt (order : Option Order) : Option ReceiptData :=
  match order with
  | none => none
  | some o => some (computeReceipt o)

/-- Convenience constructor: an order whose presentation-only fields are
fixed, exposing only what the calculator reads. -/
def mkOrder (cart : Option (List CartItem)) (dp : Option ℚ) : Order :=
  ⟨1, "INV-1", "2024-01-01", "10:00", 0, "cash", cart, none, dp⟩

/-- Convenience constructor for cart items. -/
def mkItem (p q s c : Option ℚ) : CartItem :=
  ⟨"item", p, q, none, s, c⟩

/-- Orders whose items all carry their `price` and `quantity`, i.e. carts
that are well typed against the `CartItem` interface. -/
def PresentItems (o : Order) : Prop :=
  ∀ i ∈ o.cart.getD [], i.price.isSome ∧ i.quantity.isSome

/-- The spec's scenario cart: one item, price 100, quantity 2, both tax
rates 9%. -/
def scenarioCart : List CartItem :=
  [mkItem (some 100) (some 2) (some 9) (some 9)]

/-- The spec's scenario order: the scenario cart with a 10% discount. -/
def scenarioOrder : Order :=
  mkOrder (some scenarioCart) (some 10)

/-- A cart whose items carry component-A (SGST) rates 5, 5 and 12. -/
def ratesCart : List CartItem :=
  [mkItem (some 1) (some 1) (some 5) none,
   mkItem (some 1) (some 1) (some 5) none,
   mkItem (some 1) (some 1) (some 12) none]

/-- Reference dedup keeping the first occurrence of every value, used to
state the first-seen-order invariant of the rate lists. -/
def dedupFirst : List ℚ → List ℚ
  | [] => []
  | r :: rs => r :: dedupFirst (rs.filter fun x => x ≠ r)
termination_by l => l.length
decreasing_by
  simp only [List.length_cons]
  exact Nat.lt_succ_of_le (List.length_filter_le _ rs)

theorem mem_dedupFirst (l : List ℚ) (x : ℚ) : x ∈ dedupFirst l ↔ x ∈ l := by
  induction l using dedupFirst.induct with
  | case1 => simp [dedupFirst]
  | case2 r rs ih =>
    simp only [dedupFirst, List.mem_cons, ih, List.mem_filter,
      decide_eq_true_eq]
    by_cases hx : x = r
    · simp [hx]
    · simp [hx]

theorem nodup_dedupFirst (l : List ℚ) : (dedupFirst l).Nodup := by
  induction l using dedupFirst.induct with
  | case1 => simp [dedupFirst]
  | case2 r rs ih =>
    simp only [dedupFirst, List.nodup_cons]
    refine ⟨fun hmem => ?_, ih⟩
    rcases List.mem_filter.mp ((mem_dedupFirst _ _).mp hmem) with ⟨-, hne⟩
    exact (decide_eq_true_eq.mp hne) rfl

theorem foldl_ratesStep_eq (l acc : List ℚ) :
    l.foldl ratesStep acc =
      acc ++ dedupFirst (l.filter fun r => decide (0 < r ∧ r ∉ acc)) := by
  induction l generalizing acc with
  | nil => simp [dedupFirst]
  | cons r rs ih =>
    simp only [List.foldl_cons, List.filter_cons]
    by_cases h : 0 < r ∧ r ∉ acc
    · have hfilter : (rs.filter fun x => decide (0 < x ∧ x ∉ acc ++ [r]))
          = (rs.filter fun x => decide (0 < x ∧ x ∉ acc)).filter
              fun x => decide (x ≠ r) := by
        rw [List.filter_filter]
        refine List.filter_congr fun x _ => ?_
        by_cases hx : x = r <;> by_cases hx0 : 0 < x <;>
          by_cases hxa : x ∈ acc <;> simp [hx, hx0, hxa]
      rw [show ratesStep acc r = acc ++ [r] from if_pos h, ih, hfilter]
      have hp : decide (0 < r ∧ r ∉ acc) = true := by simpa using h
      simp only [hp, if_true, dedupFirst, List.append_assoc,
        List.cons_append, List.nil_append]
    · rw [show ratesStep acc r = acc from if_neg h, ih]
      have hp : decide (0 < r ∧ r ∉ acc) = false := by simpa using h
      simp only [hp, if_false, Bool.false_eq_true]

theorem foldl_gstStep_sgstRates (l : List CartItem) (s : GSTSummary) :
    (l.foldl gstStep s).sgstRates =
      (l.map fun i => i.sgst.getD 0).foldl ratesStep s.sgstRates := by
  induction l generalizing s with
  | nil => rfl
  | cons i l ih => simpa using ih (gstStep s i)

theorem foldl_gstStep_cgstRates (l : List CartItem) (s : GSTSummary) :
    (l.foldl gstStep s).cgstRates =
      (l.map fun i => i.cgst.getD 0).foldl ratesStep s.cgstRates := by
  induction l generalizing s with
  | nil => rfl
  | cons i l ih => simpa using ih (gstStep s i)

theorem foldl_itemTotal (l : List CartItem) (a : ℚ) :
    l.foldl (fun sum item => sum + item.quantity.getD 0 * item.price.getD 0) a
      = a + (l.map fun i => i.quantity.getD 0 * i.price.getD 0).sum := by
  induction l generalizing a with
  | nil => simp
  | cons i l ih => simp [ih, add_assoc]

theorem foldl_gstStep_baseAmount (l : List CartItem) (s : GSTSummary) (b : ℚ)
    (hb : s.baseAmount = some b)
    (h : ∀ i ∈ l, i.price.isSome ∧ i.quantity.isSome) :
    (l.foldl gstStep s).baseAmount
      = some (b + (l.map fun i => i.quantity.getD 0 * i.price.getD 0).sum) := by
  induction l generalizing s b with
  | nil => simp [hb]
  | cons i l ih =>
    obtain ⟨hp, hq⟩ := h i (List.mem_cons_self i l)
    rcases Option.isSome_iff_exists.mp hp with ⟨p, hp'⟩
    rcases Option.isSome_iff_exists.mp hq with ⟨q, hq'⟩
    have hstep : (gstStep s i).baseAmount = some (b + q * p) := by
      simp [gstStep, jsAdd, jsMul, hb, hp', hq']
    rw [List.foldl_cons,
      ih (gstStep s i) (b + q * p) hstep fun j hj => h j (List.mem_cons_of_mem _ hj)]
    simp [hp', hq', add_assoc]

theorem foldl_gstStep_isSome (l : List CartItem) (s : GSTSummary)
    (h : ∀ i ∈ l, i.price.isSome ∧ i.quantity.isSome)
    (hb : s.baseAmount.isSome) (hs : s.sgstAmount.isSome)
    (hc : s.cgstAmount.isSome) :
    (l.foldl gstStep s).baseAmount.isSome
      ∧ (l.foldl gstStep s).sgstAmount.isSome
      ∧ (l.foldl gstStep s).cgstAmount.isSome := by
  induction l generalizing s with
  | nil => exact ⟨hb, hs, hc⟩
  | cons i l ih =>
    obtain ⟨hp, hq⟩ := h i (List.mem_cons_self i l)
    rcases Option.isSome_iff_exists.mp hp with ⟨p, hp'⟩
    rcases Option.isSome_iff_exists.mp hq with ⟨q, hq'⟩
    rcases Option.isSome_iff_exists.mp hb with ⟨b, hb'⟩
    rcases Option.isSome_iff_exists.mp hs with ⟨a, hs'⟩
    rcases Option.isSome_iff_exists.mp hc with ⟨c, hc'⟩
    rw [List.foldl_cons]
    refine ih (gstStep s i) (fun j hj => h j (List.mem_cons_of_mem _ hj))
      ?_ ?_ ?_ <;>
      simp [gstStep, calculateItemGST, jsAdd, jsMul, jsDiv100,
        hb', hs', hc', hp', hq']

theorem ratesList_spec (l : List ℚ) :
    l.foldl ratesStep []
      = dedupFirst (l.filter fun r => decide (0 < r)) := by
  rw [foldl_ratesStep_eq]
  simp only [List.nil_append]
  congr 1
  exact List.filter_congr fun x _ => by simp

/-- C1: the two tax-component amounts are computed from pre-discount
per-item base amounts — changing the discount percentage never changes the
tax summary — and the discount is subtracted only from the pre-tax total.
On the cart `[{price: 100, quantity: 2, sgst: 9, cgst: 9}]` with a 10%
discount: `discountAmount = 20`, `finalAmount = 180`, both tax components
are 18, and the taxable value `finalAmount - (cgstAmount + sgstAmount)`
is 144. -/
theorem discount_does_not_reduce_tax :
    (∀ (o : Order) (d : Option ℚ),
      gstSummary { o with discount_percentage := d } = gstSummary o) ∧
    discountAmount scenarioOrder = 20 ∧
    finalAmount scenarioOrder = 180 ∧
    (gstSummary scenarioOrder).sgstAmount = some 18 ∧
    (gstSummary scenarioOrder).cgstAmount = some 18 ∧
    taxableValue scenarioOrder = some 144 := by
  refine ⟨fun o d => rfl, ?_, ?_, ?_, ?_, ?_⟩ <;>
    norm_num [taxableValue, finalAmount, discountAmount, totalAmount,
      gstSummary, gstStep, calculateItemGST, ratesStep, jsMul, jsAdd, jsSub,
      jsDiv100, scenarioOrder, scenarioCart, mkOrder, mkItem]

/-- C2 counterexample: an item whose `price` field is absent does not
contribute 0 — `calculateItemGST` multiplies the raw `item.price` and
`item.quantity`, so both tax components and the summary's `baseAmount`
become `NaN` (modelled `none`), not 0. -/
theorem calculateItemGST_absent_price_not_zero :
    (calculateItemGST (mkItem none (some 1) (some 10) (some 10))).sgst
        ≠ some 0 ∧
    (calculateItemGST (mkItem none (some 1) (some 10) (some 10))).cgst
        ≠ some 0 ∧
    (gstSummary (mkOrder (some [mkItem none (some 1) (some 10) (some 10)])
        none)).baseAmount ≠ some 0 := by
  refine ⟨?_, ?_, ?_⟩ <;>
    simp [calculateItemGST, gstSummary, gstStep, ratesStep, jsMul, jsAdd,
      jsDiv100, mkOrder, mkItem]

/-- C2 (amended): per-item tax is defensive only in its rate fields — for
an item whose `price` and `quantity` are present, `componentA =
price × quantity × rateA / 100` and `componentB = price × quantity ×
rateB / 100` with an absent rate contributing 0; an absent `price` or
`quantity`, however, is not defaulted and poisons both components. -/
theorem calculateItemGST_defensive (item : CartItem) (p q : ℚ)
    (hp : item.price = some p) (hq : item.quantity = some q) :
    calculateItemGST item
      = ⟨some (p * q * item.sgst.getD 0 / 100),
         some (p * q * item.cgst.getD 0 / 100)⟩ := by
  simp [calculateItemGST, jsMul, jsDiv100, hp, hq, ItemGST.mk.injEq,
    mul_div_assoc]

/-- C2 witness: the amended theorem evaluated on a concrete item with an
absent component-B rate. -/
theorem calculateItemGST_defensive_witness :
    calculateItemGST (mkItem (some 100) (some 2) (some 9) none)
      = ⟨some 18, some 0⟩ := by
  rw [calculateItemGST_defensive (mkItem (some 100) (some 2) (some 9) none)
    100 2 rfl rfl]
  norm_num [mkItem]

/-- C3: the discount is a conditional short-circuit, not a clamp — a
present non-zero percentage (negative and greater-than-100 included)
yields `totalAmount × d / 100`, while a zero or absent percentage yields
exactly 0. -/
theorem discountAmount_conditional (o : Order) :
    (∀ d : ℚ, o.discount_percentage = some d → d ≠ 0 →
      discountAmount o = totalAmount o * d / 100) ∧
    (o.discount_percentage = none ∨ o.discount_percentage = some 0 →
      discountAmount o = 0) := by
  constructor
  · intro d hd hne
    simp [discountAmount, hd, hne, mul_div_assoc]
  · rintro (hd | hd) <;> simp [discountAmount, hd]

/-- C3 witness: a 150% discount is not clamped. -/
theorem discountAmount_conditional_witness :
    discountAmount (mkOrder (some scenarioCart) (some 150))
      = totalAmount (mkOrder (some scenarioCart) (some 150)) * 150 / 100 :=
  (discountAmount_conditional (mkOrder (some scenarioCart) (some 150))).1
    150 rfl (by norm_num)

/-- C4: each rate set equals the first-seen-order dedup of the
strictly-positive item rates, is duplicate-free, and contains a rate iff
it is positive and carried by some item; the cart with component-A rates
`[5, 5, 12]` yields exactly `[5, 12]`. -/
theorem rate_sets_invariant (o : Order) :
    ((gstSummary o).sgstRates
        = dedupFirst (((o.cart.getD []).map fun i => i.sgst.getD 0).filter
            fun r => decide (0 < r)) ∧
      (gstSummary o).sgstRates.Nodup ∧
      ∀ r : ℚ, r ∈ (gstSummary o).sgstRates ↔
        0 < r ∧ ∃ i ∈ o.cart.getD [], i.sgst.getD 0 = r) ∧
    ((gstSummary o).cgstRates
        = dedupFirst (((o.cart.getD []).map fun i => i.cgst.getD 0).filter
            fun r => decide (0 < r)) ∧
      (gstSummary o).cgstRates.Nodup ∧
      ∀ r : ℚ, r ∈ (gstSummary o).cgstRates ↔
        0 < r ∧ ∃ i ∈ o.cart.getD [], i.cgst.getD 0 = r) ∧
    (gstSummary (mkOrder (some ratesCart) none)).sgstRates = [5, 12] := by
  have hs : (gstSummary o).sgstRates
      = dedupFirst (((o.cart.getD []).map fun i => i.sgst.getD 0).filter
          fun r => decide (0 < r)) := by
    rw [gstSummary, foldl_gstStep_sgstRates, ratesList_spec]
  have hc : (gstSummary o).cgstRates
      = dedupFirst (((o.cart.getD []).map fun i => i.cgst.getD 0).filter
          fun r => decide (0 < r)) := by
    rw [gstSummary, foldl_gstStep_cgstRates, ratesList_spec]
  refine ⟨⟨hs, ?_, ?_⟩, ⟨hc, ?_, ?_⟩, ?_⟩
  · rw [hs]; exact nodup_dedupFirst _
  · intro r
    rw [hs, mem_dedupFirst]
    simp only [List.mem_filter, List.mem_map, decide_eq_true_eq]
    constructor
    · rintro ⟨⟨i, hi, hir⟩, hr⟩
      exact ⟨hr, i, hi, hir⟩
    · rintro ⟨hr, i, hi, hir⟩
      exact ⟨⟨i, hi, hir⟩, hr⟩
  · rw [hc]; exact nodup_dedupFirst _
  · intro r
    rw [hc, mem_dedupFirst]
    simp only [List.mem_filter, List.mem_map, decide_eq_true_eq]
    constructor
    · rintro ⟨⟨i, hi, hir⟩, hr⟩
      exact ⟨hr, i, hi, hir⟩
    · rintro ⟨hr, i, hi, hir⟩
      exact ⟨⟨i, hi, hir⟩, hr⟩
  · decide

/-- C5: `formatGSTRates` renders an empty rate list as `"0"`, a single
rate as itself, and two or more rates as `"min-max"` over the numeric
minimum and maximum of the list, dropping middle values. -/
theorem formatGSTRates_spec :
    formatGSTRates [] = "0" ∧
    formatGSTRates [(7 : ℚ)] = "7" ∧
    formatGSTRates [(5 : ℚ), 12, 18] = "5-18" ∧
    ∀ (rates : List ℚ) (a b : ℚ), 2 ≤ rates.length →
      rates.min? = some a → rates.max? = some b →
      formatGSTRates rates = toString a ++ "-" ++ toString b := by
  refine ⟨rfl, by decide, by decide, ?_⟩
  intro rates a b hlen hmin hmax
  rcases rates with _ | ⟨r, rs0⟩
  · simp at hlen
  rcases rs0 with _ | ⟨r', rs⟩
  · simp at hlen
  have hmin' : (r' :: rs).foldl min r = a := by
    simpa [List.min?] using hmin
  have hmax' : (r' :: rs).foldl max r = b := by
    simpa [List.max?] using hmax
  simp [formatGSTRates, hmin', hmax']

/-- C5 witness: the min-max branch evaluated on `[3, 9, 6]`. -/
theorem formatGSTRates_spec_witness :
    formatGSTRates [(3 : ℚ), 9, 6] = "3-9" := by
  have h := formatGSTRates_spec.2.2.2 [(3 : ℚ), 9, 6] 3 9
    (by decide) (by decide) (by decide)
  simpa using h

/-- C6: `totalAmount` sums `quantity × price` over the cart with absent
fields defaulted to 0, and is 0 on an empty or absent cart. -/
theorem totalAmount_spec (o : Order) :
    totalAmount o
      = ((o.cart.getD []).map fun i => i.quantity.getD 0 * i.price.getD 0).sum ∧
    (o.cart = none ∨ o.cart = some [] → totalAmount o = 0) := by
  constructor
  · rw [totalAmount, foldl_itemTotal, zero_add]
  · rintro (h | h) <;> simp [totalAmount, h]

/-- C6 witness: an absent cart yields total 0. -/
theorem totalAmount_spec_witness : totalAmount (mkOrder none none) = 0 :=
  (totalAmount_spec (mkOrder none none)).2 (Or.inl rfl)

/-- C7: `finalAmount` is `totalAmount` minus `discountAmount`,
unconditionally. -/
theorem finalAmount_identity (o : Order) :
    finalAmount o = totalAmount o - discountAmount o := rfl

/-- C8: the calculator is total — on every order that is well typed
against the `CartItem` interface (every item carries `price` and
`quantity`), all derived outputs are defined numbers: `totalAmount`,
`discountAmount` and `finalAmount` are rationals by construction, and
every `JSNum` output is `some` value, never `NaN`; no case is unhandled
and no exception path exists. -/
theorem calculator_total (o : Order) (h : PresentItems o) :
    (computeReceipt o).baseAmount.isSome ∧
    (computeReceipt o).sgstAmount.isSome ∧
    (computeReceipt o).cgstAmount.isSome ∧
    (computeReceipt o).totalTax.isSome ∧
    (computeReceipt o).taxableValue.isSome := by
  obtain ⟨hb, hs, hc⟩ :=
    foldl_gstStep_isSome (o.cart.getD []) ⟨some 0, some 0, some 0, [], []⟩
      h rfl rfl rfl
  rcases Option.isSome_iff_exists.mp hs with ⟨a, ha⟩
  rcases Option.isSome_iff_exists.mp hc with ⟨c, hc'⟩
  refine ⟨hb, hs, hc, ?_, ?_⟩
  · simp only [computeReceipt, totalTax]
    simp [jsAdd, show (gstSummary o).sgstAmount = some a from ha,
      show (gstSummary o).cgstAmount = some c from hc']
  · simp only [computeReceipt, taxableValue]
    simp [jsAdd, jsSub, show (gstSummary o).sgstAmount = some a from ha,
      show (gstSummary o).cgstAmount = some c from hc']

/-- C8 witness: a degenerate order (empty cart, negative discount) still
produces defined outputs. -/
theorem calculator_total_witness :
    (computeReceipt (mkOrder (some []) (some (-5)))).baseAmount.isSome ∧
    (computeReceipt (mkOrder (some []) (some (-5)))).sgstAmount.isSome ∧
    (computeReceipt (mkOrder (some []) (some (-5)))).cgstAmount.isSome ∧
    (computeReceipt (mkOrder (some []) (some (-5)))).totalTax.isSome ∧
    (computeReceipt (mkOrder (some []) (some (-5)))).taxableValue.isSome :=
  calculator_total (mkOrder (some []) (some (-5)))
    (by simp [PresentItems, mkOrder])

/-- C9: an absent order is the only failure mode — the component's null
guard returns the absent marker without computing anything, and a present
order always yields a result. -/
theorem absent_order_renders_nothing :
    OrderHistoryReceipt none = none ∧
    ∀ o : Order, (OrderHistoryReceipt (some o)).isSome :=
  ⟨rfl, fun _ => rfl⟩

/-- C10: on orders whose items all carry `price` and `quantity`, the tax
summary's independently accumulated `baseAmount` agrees with
`totalAmount`. -/
theorem gstSummary_base_eq_totalAmount (o : Order) (h : PresentItems o) :
    (gstSummary o).baseAmount = some (totalAmount o) := by
  rw [gstSummary, foldl_gstStep_baseAmount (o.cart.getD []) _ 0 rfl h,
    totalAmount, foldl_itemTotal, zero_add]

/-- C10 witness: the two subtotals agree on the scenario cart. -/
theorem gstSummary_base_eq_totalAmount_witness :
    (gstSummary scenarioOrder).baseAmount = some (totalAmount scenarioOrder) :=
  gstSummary_base_eq_totalAmount scenarioOrder
    (by simp [PresentItems, scenarioOrder, scenarioCart, mkOrder, mkItem])
